import Mathlib

/-
  Verification of the cache-aside data access layer in
  src/fastapi/src/services/base_service.py (class BaseDataService).

  The service is embedded shallowly:
    * the Redis cache is a state record (string keys to single values with a
      recorded TTL, plus string keys to lists) threaded explicitly;
    * the Elasticsearch client is an oracle giving, for each (index, id) or
      (index, body) request, either a document payload, a NotFoundError, or a
      transport failure;
    * Python exceptions become an Except value; an uncaught exception is a
      propagated error result;
    * the pydantic entity models (models/models.py, not part of the extracted
      sources) are modelled from the spec as an opaque record with an id field
      and a codec whose serialized form is tagged, so that serialize-then-parse
      round-trips and arbitrary malformed payloads exist.
-/

/-- Modelled from the spec: an entity record (film, person or genre) is an
opaque structured document that always carries a unique identifier field.
The concrete pydantic models live in models/models.py, which is not among the
extracted sources. -/
structure Entity where
  id : String
  payload : String
deriving DecidableEq, Repr

/-- Modelled from the spec: a raw byte/text payload as stored in the cache or
returned by the backend. It is either the serialized form of an entity record
(the codec round-trips by construction, the round-trip invariant of the spec)
or a malformed payload that the codec rejects. -/
inductive Raw where
  | enc (e : Entity)
  | garbage (s : String)
deriving DecidableEq, Repr

/-- doc.json() of a pydantic model: the serialized form of the record. -/
def Entity.json (e : Entity) : Raw := Raw.enc e

/-- Python truthiness of a raw payload (bytes): only the empty byte string is
falsy. A serialized record is never empty, so it is truthy. -/
def Raw.isTruthy : Raw → Bool
  | Raw.enc _ => true
  | Raw.garbage s => !s.isEmpty

/-- Uncaught Python exceptions of the data layer: a KeyError from the MODELS
table lookup, a pydantic validation error from deserialization, a TypeError
from calling a client method with a keyword it does not accept, and a
transport/communication failure raised by a collaborator client. -/
inductive PyError where
  | keyError (key : String)
  | validationError (msg : String)
  | typeError (msg : String)
  | transportError (msg : String)
deriving DecidableEq, Repr

/-- The three entity variants bound by the MODELS table. -/
inductive Variant where
  | movies
  | persons
  | genres
deriving DecidableEq, Repr

/-- The MODELS lookup table of base_service.py: partition name to model class.
A lookup for any other name raises KeyError, modelled as the none case. -/
def MODELS (s : String) : Option Variant :=
  if s = "movies" then some Variant.movies
  else if s = "persons" then some Variant.persons
  else if s = "genres" then some Variant.genres
  else none

/-- CACHE_EXPIRE_IN_SECONDS = 60 * 5 in base_service.py. -/
def CACHE_EXPIRE_IN_SECONDS : Nat := 60 * 5

/-- The codec of the bound entity model: both MODELS[name].parse_raw(bytes) on
cached payloads and MODELS[name](**doc) on backend documents validate the raw
payload into a record, raising a validation error on a malformed payload. -/
def parseEntity : Raw → Except PyError Entity
  | Raw.enc e => Except.ok e
  | Raw.garbage s => Except.error (PyError.validationError s)

/-- The Redis state: single string entries (with the TTL recorded at set time)
and list entries, both keyed by strings. -/
structure CacheState where
  kv : String → Option (Raw × Nat)
  lists : String → List Raw

/-- redis.get(key): the stored value, or None when the key is absent. -/
def redisGet (c : CacheState) (key : String) : Option Raw :=
  Option.map Prod.fst (c.kv key)

/-- The TypeError raised when Redis.set of redis.asyncio (redis-py) is called
with the keyword expire: that client takes the TTL as ex or px, the expire
keyword belonged to the older aioredis 1.x API. Argument binding fails before
any write or network activity, so the call raises on every invocation. -/
def setExpireTypeError : PyError :=
  PyError.typeError "set() got an unexpected keyword argument expire"

/-- redis.lrange(key, 0, stop): the elements at positions 0 through stop
inclusive, Redis range bounds being inclusive on both ends. -/
def redisLrange (c : CacheState) (key : String) (stop : Nat) : List Raw :=
  List.take (stop + 1) (c.lists key)

/-- redis.rpush(key, *values): append the values at the right end of the list
stored at the key. -/
def redisRpush (c : CacheState) (key : String) (vals : List Raw) : CacheState :=
  CacheState.mk c.kv (fun k => if k = key then c.lists k ++ vals else c.lists k)

/-- Outcome of elastic.get(index=..., id=...): a found document (its _source
payload), a NotFoundError, or a transport failure. -/
inductive EGetResult where
  | found (src : Raw)
  | notFoundError
  | transportError (msg : String)
deriving DecidableEq, Repr

/-- Outcome of elastic.search(index=..., body=...): a hit list (the _source
payload of each hit, in backend order), a NotFoundError, or a transport
failure. -/
inductive ESearchResult where
  | hits (srcs : List Raw)
  | notFoundError
  | transportError (msg : String)
deriving DecidableEq, Repr

/-- The Elasticsearch client as an oracle over requests. -/
structure Elastic where
  getDoc : String → String → EGetResult
  search : String → String → ESearchResult

/-- The service object: index_name names the bound partition, service_name is
only used for logging. -/
structure BaseDataService where
  index_name : String
  service_name : String

/-- In _get_item_from_cache the source writes `if self.redis.exists(doc_id):`
without awaiting the call, so the condition tests the coroutine object itself,
which is always truthy: the branch is taken on every call, for every cache
state and every doc_id. -/
def existsCheckTruthy (_c : CacheState) (_doc_id : String) : Bool :=
  true

/-- BaseDataService._get_item_from_cache: the (unawaited, hence always truthy)
existence check on the bare doc_id, then redis.get on the prefixed key
index_name + doc_id. -/
def get_item_from_cache (svc : BaseDataService) (c : CacheState) (doc_id : String) :
    Option Raw :=
  if existsCheckTruthy c doc_id then
    redisGet c (svc.index_name ++ doc_id)
  else
    none

/-- BaseDataService._put_item_to_cache: the source calls redis.set with the
key index_name + doc.id, the value doc.json() and the keyword
expire=CACHE_EXPIRE_IN_SECONDS. The imported client is Redis of redis.asyncio,
whose set method has no expire keyword, so the call raises
setExpireTypeError on every invocation and the intended TTL write never
happens; the cache state is left unchanged. -/
def put_item_to_cache (_svc : BaseDataService) (_c : CacheState) (_doc : Entity) :
    Except PyError CacheState :=
  Except.error setExpireTypeError

/-- BaseDataService._get_item_from_elastic: elastic.get on (index_name, doc_id);
NotFoundError is caught and becomes None; on a found document the MODELS table
is consulted (KeyError propagates) and the document is validated into the bound
model (validation errors propagate); transport failures propagate. -/
def get_item_from_elastic (svc : BaseDataService) (es : Elastic) (doc_id : String) :
    Except PyError (Option Entity) :=
  match es.getDoc svc.index_name doc_id with
  | EGetResult.notFoundError => Except.ok none
  | EGetResult.transportError m => Except.error (PyError.transportError m)
  | EGetResult.found src =>
      match MODELS svc.index_name with
      | none => Except.error (PyError.keyError svc.index_name)
      | some _ =>
          match parseEntity src with
          | Except.ok e => Except.ok (some e)
          | Except.error err => Except.error err

/-- Result of one get_by_id call: the returned value or propagated exception,
the cache state after the call, and how many Elasticsearch requests the call
issued. -/
structure FetchOneResult where
  result : Except PyError (Option Entity)
  cache : CacheState
  elasticCalls : Nat

/-- BaseDataService.get_by_id: read the cache; a truthy cached payload is
deserialized through MODELS[index_name] and returned; otherwise fall back to
Elasticsearch, return None when it reports not found, and on success attempt
to write the record to the cache before returning it (an attempt that raises,
see put_item_to_cache, so the raised error propagates and the record is not
returned on this path). -/
def get_by_id (svc : BaseDataService) (es : Elastic) (c : CacheState) (doc_id : String) :
    FetchOneResult :=
  let fromElastic : FetchOneResult :=
    match get_item_from_elastic svc es doc_id with
    | Except.error err => FetchOneResult.mk (Except.error err) c 1
    | Except.ok none => FetchOneResult.mk (Except.ok none) c 1
    | Except.ok (some e) =>
        match put_item_to_cache svc c e with
        | Except.error err => FetchOneResult.mk (Except.error err) c 1
        | Except.ok c2 => FetchOneResult.mk (Except.ok (some e)) c2 1
  match get_item_from_cache svc c doc_id with
  | none => fromElastic
  | some raw =>
      if raw.isTruthy then
        match MODELS svc.index_name with
        | none => FetchOneResult.mk (Except.error (PyError.keyError svc.index_name)) c 0
        | some _ =>
            match parseEntity raw with
            | Except.ok e => FetchOneResult.mk (Except.ok (some e)) c 0
            | Except.error err => FetchOneResult.mk (Except.error err) c 0
      else fromElastic

/-- Modelled from the spec: the builtin str hash used by _get_hash is a
process-seeded hash of the string; the spec requires only that it is
deterministic for identical inputs within a process, so it is embedded as a
fixed deterministic function on strings. -/
def pyHash (s : String) : Nat :=
  List.foldl (fun a ch => (a * 131 + ch.toNat) % 18446744073709551616) 7 s.data

/-- BaseDataService._get_hash: str(hash(kwargs)). -/
def get_hash (s : String) : String :=
  toString (pyHash s)

/-- BaseDataService._get_full_data_from_cache: redis.lrange(key, 0, redis_range). -/
def get_full_data_from_cache (c : CacheState) (key : String) (redis_range : Nat) :
    List Raw :=
  redisLrange c key redis_range

/-- BaseDataService._put_full_data_to_cache: redis.rpush(key, *data). -/
def put_full_data_to_cache (c : CacheState) (data : List Raw) (key : String) :
    CacheState :=
  redisRpush c key data

/-- The list comprehensions of _get_data and _get_data_from_elastic: for each
raw item, look up MODELS[self.index_name] (KeyError propagates; with zero items
the lookup never happens) and validate the item into the bound model, keeping
the order of the items. -/
def parse_items (svc : BaseDataService) : List Raw → Except PyError (List Entity)
  | [] => Except.ok []
  | r :: rest =>
      match MODELS svc.index_name with
      | none => Except.error (PyError.keyError svc.index_name)
      | some _ =>
          match parseEntity r with
          | Except.error err => Except.error err
          | Except.ok e =>
              match parse_items svc rest with
              | Except.error err => Except.error err
              | Except.ok tl => Except.ok (e :: tl)

/-- BaseDataService._get_data_from_elastic: elastic.search on (index, body);
NotFoundError is caught and becomes None; hits are validated into the bound
model MODELS[self.index_name] in backend order (note: the bound index_name,
not the index argument); transport failures propagate. -/
def get_data_from_elastic (svc : BaseDataService) (es : Elastic)
    (body : String) (index : String) : Except PyError (Option (List Entity)) :=
  match es.search index body with
  | ESearchResult.notFoundError => Except.ok none
  | ESearchResult.transportError m => Except.error (PyError.transportError m)
  | ESearchResult.hits srcs =>
      match parse_items svc srcs with
      | Except.error err => Except.error err
      | Except.ok items => Except.ok (some items)

/-- The effective index of _get_data: `if not index_name` replaces both an
omitted argument and an empty string (Python falsiness) by the bound
index_name. -/
def eff_index (svc : BaseDataService) (index_name : Option String) : String :=
  match index_name with
  | none => svc.index_name
  | some s => if s.isEmpty then svc.index_name else s

/-- Result of one _get_data call: returned value or propagated exception, the
cache state after the call, and the number of Elasticsearch requests issued. -/
structure FetchManyResult where
  result : Except PyError (Option (List Entity))
  cache : CacheState
  elasticCalls : Nat

/-- BaseDataService._get_data: derive the key str(hash(str(body) + index)),
read up to the range bound from the cache list; when that read is empty, query
Elasticsearch, return None on not found or zero hits, otherwise cache the
serialized records under the key and return them; when the cached read is
nonempty, deserialize the cached items and return them. -/
def get_data (svc : BaseDataService) (es : Elastic) (c : CacheState)
    (body : String) (size : Nat) (index_name : Option String) : FetchManyResult :=
  let index := eff_index svc index_name
  let redis_key := get_hash (body ++ index)
  let data := get_full_data_from_cache c redis_key size
  if data.isEmpty then
    match get_data_from_elastic svc es body index with
    | Except.error err => FetchManyResult.mk (Except.error err) c 1
    | Except.ok none => FetchManyResult.mk (Except.ok none) c 1
    | Except.ok (some items) =>
        if items.isEmpty then
          FetchManyResult.mk (Except.ok none) c 1
        else
          FetchManyResult.mk (Except.ok (some items))
            (put_full_data_to_cache c (List.map Entity.json items) redis_key) 1
  else
    match parse_items svc data with
    | Except.error err => FetchManyResult.mk (Except.error err) c 0
    | Except.ok items => FetchManyResult.mk (Except.ok (some items)) c 0

/-! Concrete instances used by witnesses and counterexamples. -/

/-- A service bound to the genres partition. -/
def svcG : BaseDataService := BaseDataService.mk "genres" "genre"

/-- A service left at the default, empty index_name. -/
def svcEmpty : BaseDataService := BaseDataService.mk "" "base"

/-- Sample genre records. -/
def entA : Entity := Entity.mk "a" "A"

def entB : Entity := Entity.mk "b" "B"

def entC : Entity := Entity.mk "c" "C"

/-- The empty cache. -/
def c0 : CacheState := CacheState.mk (fun _ => none) (fun _ => [])

/-- A cache holding the serialized entB under key genresa (and nothing else). -/
def cHitB : CacheState :=
  CacheState.mk (fun k => if k = "genresa" then some (Raw.enc entB, 300) else none)
    (fun _ => [])

/-- A cache holding an empty (falsy) malformed payload under key genresg1. -/
def cEmptyGarbage : CacheState :=
  CacheState.mk (fun k => if k = "genresg1" then some (Raw.garbage "", 300) else none)
    (fun _ => [])

/-- A cache holding a nonempty malformed payload under key genresg. -/
def cGarb : CacheState :=
  CacheState.mk (fun k => if k = "genresg" then some (Raw.garbage "bad", 300) else none)
    (fun _ => [])

/-- A cache whose every list holds the three serialized records, in order. -/
def cList3 : CacheState :=
  CacheState.mk (fun _ => none) (fun _ => [Raw.enc entA, Raw.enc entB, Raw.enc entC])

/-- A cache whose every list holds one malformed payload. -/
def cListGarb : CacheState :=
  CacheState.mk (fun _ => none) (fun _ => [Raw.garbage "bad"])

/-- A cache holding a value only under the bare key a (no partition prefix). -/
def cBare : CacheState :=
  CacheState.mk (fun k => if k = "a" then some (Raw.enc entA, 300) else none) (fun _ => [])

/-- A backend that reports not found everywhere. -/
def esNF : Elastic :=
  Elastic.mk (fun _ _ => EGetResult.notFoundError) (fun _ _ => ESearchResult.notFoundError)

/-- A backend that fails with a transport error everywhere. -/
def esTr : Elastic :=
  Elastic.mk (fun _ _ => EGetResult.transportError "boom")
    (fun _ _ => ESearchResult.transportError "boom")

/-- A backend whose get always finds the serialized entA and whose searches
report not found. -/
def esFoundA : Elastic :=
  Elastic.mk (fun _ _ => EGetResult.found (Raw.enc entA))
    (fun _ _ => ESearchResult.notFoundError)

/-- A backend whose searches return the two serialized records entA, entB. -/
def esAB : Elastic :=
  Elastic.mk (fun _ _ => EGetResult.notFoundError)
    (fun _ _ => ESearchResult.hits [Raw.enc entA, Raw.enc entB])

/-- A backend whose searches return the three serialized records entA, entB,
entC. -/
def esABC : Elastic :=
  Elastic.mk (fun _ _ => EGetResult.notFoundError)
    (fun _ _ => ESearchResult.hits [Raw.enc entA, Raw.enc entB, Raw.enc entC])

/-- A backend whose searches return zero hits. -/
def esEmptyHits : Elastic :=
  Elastic.mk (fun _ _ => EGetResult.notFoundError) (fun _ _ => ESearchResult.hits [])

/-- A backend whose get finds a nonempty malformed payload. -/
def esGarbDoc : Elastic :=
  Elastic.mk (fun _ _ => EGetResult.found (Raw.garbage "bad"))
    (fun _ _ => ESearchResult.notFoundError)

/-- A backend whose searches return one malformed hit. -/
def esGarbHits : Elastic :=
  Elastic.mk (fun _ _ => EGetResult.notFoundError)
    (fun _ _ => ESearchResult.hits [Raw.garbage "bad"])

/-! Helper lemmas about the parsing comprehension and the two operations. -/

theorem parse_items_map_json (svc : BaseDataService) (v : Variant)
    (hv : MODELS svc.index_name = some v) (l : List Entity) :
    parse_items svc (List.map Entity.json l) = Except.ok l := by
  induction l with
  | nil => rfl
  | cons e tl ih => simp [parse_items, hv, Entity.json, parseEntity, ih]

theorem parse_items_length (svc : BaseDataService) (rs : List Raw) (l : List Entity)
    (h : parse_items svc rs = Except.ok l) : l.length = rs.length := by
  induction rs generalizing l with
  | nil =>
      simp [parse_items] at h
      simp [← h]
  | cons r rest ih =>
      unfold parse_items at h
      cases hm : MODELS svc.index_name with
      | none => rw [hm] at h; cases h
      | some v =>
          rw [hm] at h
          cases hp : parseEntity r with
          | error err => rw [hp] at h; cases h
          | ok e =>
              rw [hp] at h
              cases hr : parse_items svc rest with
              | error err => rw [hr] at h; cases h
              | ok tl =>
                  rw [hr] at h
                  cases h
                  simp [ih tl hr]

theorem parse_items_garbage (svc : BaseDataService) (s : String) (rs : List Raw)
    (h : Raw.garbage s ∈ rs) : ∃ err, parse_items svc rs = Except.error err := by
  induction rs with
  | nil => cases h
  | cons r rest ih =>
      cases hm : MODELS svc.index_name with
      | none => exact ⟨PyError.keyError svc.index_name, by simp [parse_items, hm]⟩
      | some v =>
          rcases List.mem_cons.mp h with h1 | h2
          · exact ⟨PyError.validationError s, by simp [parse_items, hm, ← h1, parseEntity]⟩
          · obtain ⟨err, herr⟩ := ih h2
            cases hp : parseEntity r with
            | error e2 => exact ⟨e2, by simp [parse_items, hm, hp]⟩
            | ok e => exact ⟨err, by simp [parse_items, hm, hp, herr]⟩

theorem get_by_id_hit_shape (svc : BaseDataService) (es : Elastic) (c : CacheState)
    (doc_id : String) (raw : Raw)
    (hc : redisGet c (svc.index_name ++ doc_id) = some raw) (ht : raw.isTruthy = true) :
    get_by_id svc es c doc_id =
      (match MODELS svc.index_name with
      | none => FetchOneResult.mk (Except.error (PyError.keyError svc.index_name)) c 0
      | some _ =>
          match parseEntity raw with
          | Except.ok e => FetchOneResult.mk (Except.ok (some e)) c 0
          | Except.error err => FetchOneResult.mk (Except.error err) c 0) := by
  simp [get_by_id, get_item_from_cache, existsCheckTruthy, hc, ht]

theorem get_by_id_miss_shape (svc : BaseDataService) (es : Elastic) (c : CacheState)
    (doc_id : String)
    (hc : ∀ raw, redisGet c (svc.index_name ++ doc_id) = some raw → raw.isTruthy = false) :
    get_by_id svc es c doc_id =
      (match get_item_from_elastic svc es doc_id with
      | Except.error err => FetchOneResult.mk (Except.error err) c 1
      | Except.ok none => FetchOneResult.mk (Except.ok none) c 1
      | Except.ok (some e) =>
          match put_item_to_cache svc c e with
          | Except.error err => FetchOneResult.mk (Except.error err) c 1
          | Except.ok c2 => FetchOneResult.mk (Except.ok (some e)) c2 1) := by
  cases hr : redisGet c (svc.index_name ++ doc_id) with
  | none => simp [get_by_id, get_item_from_cache, existsCheckTruthy, hr]
  | some raw => simp [get_by_id, get_item_from_cache, existsCheckTruthy, hr, hc raw hr]

theorem get_data_miss_hits_shape (svc : BaseDataService) (es : Elastic) (c : CacheState)
    (body : String) (size : Nat) (idx : Option String) (items : List Entity)
    (hempty : c.lists (get_hash (body ++ eff_index svc idx)) = [])
    (hes : get_data_from_elastic svc es body (eff_index svc idx) = Except.ok (some items))
    (hne : items ≠ []) :
    get_data svc es c body size idx =
      FetchManyResult.mk (Except.ok (some items))
        (put_full_data_to_cache c (List.map Entity.json items)
          (get_hash (body ++ eff_index svc idx))) 1 := by
  simp [get_data, get_full_data_from_cache, redisLrange, hempty, hes, hne]

theorem get_data_replay_shape (svc : BaseDataService) (es : Elastic) (c : CacheState)
    (body : String) (size : Nat) (idx : Option String) (items : List Entity) (v : Variant)
    (hv : MODELS svc.index_name = some v)
    (hlist : c.lists (get_hash (body ++ eff_index svc idx)) = List.map Entity.json items)
    (hne : items ≠ [])
    (hlen : items.length ≤ size + 1) :
    get_data svc es c body size idx = FetchManyResult.mk (Except.ok (some items)) c 0 := by
  have htake : List.take (size + 1) (List.map Entity.json items) = List.map Entity.json items :=
    List.take_of_length_le (by simpa using hlen)
  have hemp : (List.map Entity.json items).isEmpty = false := by
    simpa [List.isEmpty_iff] using hne
  simp [get_data, get_full_data_from_cache, redisLrange, hlist, htake, hemp,
    parse_items_map_json svc v hv]

/-! Claim theorems. -/

/-- C1: for every identifier whose record is present in the cache (possibly
with a payload different from the backend), get_by_id returns the cached
payload deserialized through the bound model and issues no Elasticsearch
call. -/
theorem get_by_id_cache_precedence (svc : BaseDataService) (es : Elastic) (c : CacheState)
    (doc_id : String) (e : Entity) (v : Variant)
    (hv : MODELS svc.index_name = some v)
    (hc : redisGet c (svc.index_name ++ doc_id) = some (Raw.enc e)) :
    (get_by_id svc es c doc_id).result = Except.ok (some e) ∧
    (get_by_id svc es c doc_id).elasticCalls = 0 := by
  rw [get_by_id_hit_shape svc es c doc_id (Raw.enc e) hc rfl]
  simp [hv, parseEntity]

/-- Witness for C1: the cache holds entB under key genresa while the backend
would return entA; get_by_id returns entB with zero backend calls. -/
theorem get_by_id_cache_precedence_witness :
    (get_by_id svcG esFoundA cHitB "a").result = Except.ok (some entB) ∧
    (get_by_id svcG esFoundA cHitB "a").elasticCalls = 0 :=
  get_by_id_cache_precedence svcG esFoundA cHitB "a" entB Variant.genres rfl rfl

/-- C2 (code bug): after a cache-miss get_by_id whose backend fetch succeeds,
the claimed TTL write and the cache-served repeat call do not happen: the
redis.set call of _put_item_to_cache passes the nonexistent keyword expire and
raises TypeError, so the call propagates that error instead of returning the
record, the cache keeps no entry under the derived key, and the repeat call
goes to the backend again. Evaluated at the failing input: empty cache,
backend holding entA under id a. -/
theorem get_by_id_population_on_miss_bug :
    redisGet c0 (svcG.index_name ++ "a") = none ∧
    esFoundA.getDoc svcG.index_name "a" = EGetResult.found (Raw.enc entA) ∧
    parseEntity (Raw.enc entA) = Except.ok entA ∧
    (get_by_id svcG esFoundA c0 "a").result = Except.error setExpireTypeError ∧
    (get_by_id svcG esFoundA c0 "a").cache.kv (svcG.index_name ++ "a") = none ∧
    (get_by_id svcG esFoundA (get_by_id svcG esFoundA c0 "a").cache "a").elasticCalls
      = 1 :=
  ⟨rfl, rfl, rfl, rfl, rfl, rfl⟩

/-- C5: with the id absent from the cache, a backend NotFoundError makes
get_by_id return None as a normal value, while a backend transport failure
propagates unchanged as an error. -/
theorem get_by_id_absent_vs_failure (svc : BaseDataService) (es : Elastic) (c : CacheState)
    (doc_id : String)
    (hmiss : redisGet c (svc.index_name ++ doc_id) = none) :
    (es.getDoc svc.index_name doc_id = EGetResult.notFoundError →
      (get_by_id svc es c doc_id).result = Except.ok none) ∧
    (∀ m, es.getDoc svc.index_name doc_id = EGetResult.transportError m →
      (get_by_id svc es c doc_id).result = Except.error (PyError.transportError m)) := by
  have hshape := get_by_id_miss_shape svc es c doc_id
    (fun raw hr => by rw [hmiss] at hr; cases hr)
  constructor
  · intro h
    rw [hshape]
    simp [get_item_from_elastic, h]
  · intro m h
    rw [hshape]
    simp [get_item_from_elastic, h]

/-- Witness for C5: id x is absent everywhere, so a not-found backend yields
None and a transport-failing backend yields the propagated error. -/
theorem get_by_id_absent_vs_failure_witness :
    (get_by_id svcG esNF c0 "x").result = Except.ok none ∧
    (get_by_id svcG esTr c0 "x").result = Except.error (PyError.transportError "boom") :=
  ⟨(get_by_id_absent_vs_failure svcG esNF c0 "x" rfl).1 rfl,
    (get_by_id_absent_vs_failure svcG esTr c0 "x" rfl).2 "boom" rfl⟩

/-- C6: with an empty cache collection at the derived key, a backend search
with zero hits or a NotFoundError makes _get_data return None, and the cache
is left untouched. -/
theorem get_data_absent_no_write (svc : BaseDataService) (es : Elastic) (c : CacheState)
    (body : String) (size : Nat) (idx : Option String)
    (hempty : c.lists (get_hash (body ++ eff_index svc idx)) = [])
    (hz : es.search (eff_index svc idx) body = ESearchResult.hits [] ∨
          es.search (eff_index svc idx) body = ESearchResult.notFoundError) :
    (get_data svc es c body size idx).result = Except.ok none ∧
    (get_data svc es c body size idx).cache = c := by
  rcases hz with h | h
  · simp [get_data, get_full_data_from_cache, redisLrange, hempty,
      get_data_from_elastic, h, parse_items]
  · simp [get_data, get_full_data_from_cache, redisLrange, hempty,
      get_data_from_elastic, h]

/-- Witness for C6: against a zero-hit backend and against a not-found backend
the query path returns None and the cache is unchanged. -/
theorem get_data_absent_no_write_witness :
    ((get_data svcG esEmptyHits c0 "q" 3 none).result = Except.ok none ∧
      (get_data svcG esEmptyHits c0 "q" 3 none).cache = c0) ∧
    ((get_data svcG esNF c0 "q" 3 none).result = Except.ok none ∧
      (get_data svcG esNF c0 "q" 3 none).cache = c0) :=
  ⟨get_data_absent_no_write svcG esEmptyHits c0 "q" 3 none rfl (Or.inl rfl),
    get_data_absent_no_write svcG esNF c0 "q" 3 none rfl (Or.inr rfl)⟩

theorem get_data_two_calls (svc : BaseDataService) (es : Elastic)
    (c : CacheState) (body : String) (size : Nat) (idx : Option String)
    (items : List Entity) (v : Variant)
    (hv : MODELS svc.index_name = some v)
    (hempty : c.lists (get_hash (body ++ eff_index svc idx)) = [])
    (hes : get_data_from_elastic svc es body (eff_index svc idx) = Except.ok (some items))
    (hne : items ≠ [])
    (hlen : items.length ≤ size + 1) :
    (get_data svc es c body size idx).result = Except.ok (some items) ∧
    (get_data svc es c body size idx).elasticCalls = 1 ∧
    (get_data svc es (get_data svc es c body size idx).cache body size idx).result =
      Except.ok (some items) ∧
    (get_data svc es (get_data svc es c body size idx).cache body size idx).elasticCalls
      = 0 := by
  have h1 := get_data_miss_hits_shape svc es c body size idx items hempty hes hne
  have hlist : (put_full_data_to_cache c (List.map Entity.json items)
      (get_hash (body ++ eff_index svc idx))).lists (get_hash (body ++ eff_index svc idx)) =
      List.map Entity.json items := by
    simp [put_full_data_to_cache, redisRpush, hempty]
  have h2 := get_data_replay_shape svc es
    (put_full_data_to_cache c (List.map Entity.json items)
      (get_hash (body ++ eff_index svc idx)))
    body size idx items v hv hlist hne hlen
  rw [h1]
  exact ⟨rfl, rfl, by simp [h2], by simp [h2]⟩

/-- Counterexample for C3 as stated: with size 0 and a backend returning two
records, two successive calls issue one backend call in total, but the first
call returns both records while the cache-served second call returns only the
first (the cached read covers positions 0 through size, the stored list is not
truncated to size), so the two result sequences differ. -/
theorem get_data_twice_not_identical :
    (get_data svcG esAB c0 "q" 0 none).result = Except.ok (some [entA, entB]) ∧
    (get_data svcG esAB (get_data svcG esAB c0 "q" 0 none).cache "q" 0 none).result =
      Except.ok (some [entA]) ∧
    (get_data svcG esAB c0 "q" 0 none).elasticCalls +
      (get_data svcG esAB (get_data svcG esAB c0 "q" 0 none).cache "q" 0 none).elasticCalls
      = 1 ∧
    (Except.ok (some [entA]) : Except PyError (Option (List Entity))) ≠
      Except.ok (some [entA, entB]) := by
  refine ⟨rfl, rfl, rfl, ?_⟩
  simp

/-- C3 amended: two successive _get_data calls on the same (body, size,
partition) from an empty cache issue exactly one backend call in total, and
return identical sequences provided the backend returned at most size + 1
records; beyond that bound the cache-served replay is truncated to the first
size + 1 records. -/
theorem get_data_query_determinism_bounded (svc : BaseDataService) (es : Elastic)
    (c : CacheState) (body : String) (size : Nat) (idx : Option String)
    (items : List Entity) (v : Variant)
    (hv : MODELS svc.index_name = some v)
    (hempty : c.lists (get_hash (body ++ eff_index svc idx)) = [])
    (hes : get_data_from_elastic svc es body (eff_index svc idx) = Except.ok (some items))
    (hne : items ≠ [])
    (hlen : items.length ≤ size + 1) :
    (get_data svc es c body size idx).result = Except.ok (some items) ∧
    (get_data svc es c body size idx).elasticCalls = 1 ∧
    (get_data svc es (get_data svc es c body size idx).cache body size idx).result =
      Except.ok (some items) ∧
    (get_data svc es (get_data svc es c body size idx).cache body size idx).elasticCalls
      = 0 :=
  get_data_two_calls svc es c body size idx items v hv hempty hes hne hlen

/-- Witness for C3 amended: size 1, backend returning two records; both calls
return [entA, entB] and exactly one backend call is issued in total. -/
theorem get_data_query_determinism_bounded_witness :
    (get_data svcG esAB c0 "q" 1 none).result = Except.ok (some [entA, entB]) ∧
    (get_data svcG esAB c0 "q" 1 none).elasticCalls = 1 ∧
    (get_data svcG esAB (get_data svcG esAB c0 "q" 1 none).cache "q" 1 none).result =
      Except.ok (some [entA, entB]) ∧
    (get_data svcG esAB (get_data svcG esAB c0 "q" 1 none).cache "q" 1 none).elasticCalls
      = 0 :=
  get_data_query_determinism_bounded svcG esAB c0 "q" 1 none [entA, entB] Variant.genres
    rfl rfl rfl (by simp) (by simp)

/-- C4: with the backend returning the serialized records of items in a given
order, the first _get_data call returns items in that order, and the
cache-served replay (same body, size, partition; backend returned at most
size + 1 records) returns them in the same order. -/
theorem get_data_order_preservation (svc : BaseDataService) (es : Elastic)
    (c : CacheState) (body : String) (size : Nat) (idx : Option String)
    (items : List Entity) (v : Variant)
    (hv : MODELS svc.index_name = some v)
    (hempty : c.lists (get_hash (body ++ eff_index svc idx)) = [])
    (hsearch : es.search (eff_index svc idx) body =
      ESearchResult.hits (List.map Entity.json items))
    (hne : items ≠ [])
    (hlen : items.length ≤ size + 1) :
    (get_data svc es c body size idx).result = Except.ok (some items) ∧
    (get_data svc es (get_data svc es c body size idx).cache body size idx).result =
      Except.ok (some items) := by
  have hes : get_data_from_elastic svc es body (eff_index svc idx) =
      Except.ok (some items) := by
    simp [get_data_from_elastic, hsearch, parse_items_map_json svc v hv]
  have h := get_data_two_calls svc es c body size idx items v hv hempty
    hes hne hlen
  exact ⟨h.1, h.2.2.1⟩

/-- Witness for C4: the backend returns [entA, entB, entC]; with size 2 both
the first call and the cached replay return them in that order. -/
theorem get_data_order_preservation_witness :
    (get_data svcG esABC c0 "q" 2 none).result = Except.ok (some [entA, entB, entC]) ∧
    (get_data svcG esABC (get_data svcG esABC c0 "q" 2 none).cache "q" 2 none).result =
      Except.ok (some [entA, entB, entC]) :=
  get_data_order_preservation svcG esABC c0 "q" 2 none [entA, entB, entC] Variant.genres
    rfl rfl rfl (by simp) (by simp)

/-- Counterexample for C7 as stated: with size 1 and three records cached at
the derived key, the cache-served call returns two records, more than size,
because lrange(key, 0, size) reads positions 0 through size inclusive. -/
theorem get_data_cache_read_exceeds_size :
    (get_data svcG esNF cList3 "q" 1 none).result = Except.ok (some [entA, entB]) ∧
    ¬ ((2 : Nat) ≤ 1) := by
  exact ⟨rfl, by simp⟩

/-- C7 amended: a cache-served _get_data call reads and returns at most
size + 1 entity records (the bounded read covers positions 0 through size
inclusive). -/
theorem get_data_cache_read_bounded (svc : BaseDataService) (es : Elastic) (c : CacheState)
    (body : String) (size : Nat) (idx : Option String) (l : List Entity)
    (hne : c.lists (get_hash (body ++ eff_index svc idx)) ≠ [])
    (hres : (get_data svc es c body size idx).result = Except.ok (some l)) :
    l.length ≤ size + 1 := by
  have hdata : (get_full_data_from_cache c (get_hash (body ++ eff_index svc idx))
      size).isEmpty = false := by
    simp [get_full_data_from_cache, redisLrange, List.isEmpty_iff, List.take_eq_nil_iff, hne]
  simp only [get_data, hdata, Bool.false_eq_true, if_false] at hres
  cases hp : parse_items svc
      (get_full_data_from_cache c (get_hash (body ++ eff_index svc idx)) size) with
  | error err => rw [hp] at hres; cases hres
  | ok items =>
      rw [hp] at hres
      simp at hres
      have hlen := parse_items_length svc _ items hp
      rw [hres] at hlen
      rw [hlen]
      simp [get_full_data_from_cache, redisLrange]

/-- Witness for C7 amended: the counterexample state with size 1 returns two
records, within the amended bound of size + 1 = 2. -/
theorem get_data_cache_read_bounded_witness :
    cList3.lists (get_hash ("q" ++ eff_index svcG none)) ≠ [] ∧
    (get_data svcG esNF cList3 "q" 1 none).result = Except.ok (some [entA, entB]) ∧
    ([entA, entB] : List Entity).length ≤ 1 + 1 := by
  refine ⟨by simp [cList3], rfl, ?_⟩
  exact get_data_cache_read_bounded svcG esNF cList3 "q" 1 none [entA, entB]
    (by simp [cList3]) rfl

/-- Counterexample for C8 as stated: an empty malformed payload cached under
key genresg1 does not conform to the codec, yet get_by_id does not propagate a
deserialization failure: the empty byte string is falsy, so the entry is
treated as a cache miss and the call returns None from the not-found
backend. -/
theorem empty_malformed_payload_not_propagated :
    redisGet cEmptyGarbage "genresg1" = some (Raw.garbage "") ∧
    parseEntity (Raw.garbage "") = Except.error (PyError.validationError "") ∧
    (get_by_id svcG esNF cEmptyGarbage "g1").result = Except.ok none :=
  ⟨rfl, rfl, rfl⟩

/-- C8 amended: every nonempty (truthy) cached payload and every backend
payload that fails the bound codec makes get_by_id and _get_data propagate the
deserialization failure instead of returning None; the sole exception is an
empty cached single-entry payload, which get_by_id treats as a cache miss. -/
theorem malformed_payload_propagates (svc : BaseDataService) (v : Variant)
    (hv : MODELS svc.index_name = some v) :
    (∀ es c doc_id s, redisGet c (svc.index_name ++ doc_id) = some (Raw.garbage s) →
      s ≠ "" →
      (get_by_id svc es c doc_id).result = Except.error (PyError.validationError s)) ∧
    (∀ es c doc_id s, redisGet c (svc.index_name ++ doc_id) = none →
      es.getDoc svc.index_name doc_id = EGetResult.found (Raw.garbage s) →
      (get_by_id svc es c doc_id).result = Except.error (PyError.validationError s)) ∧
    (∀ es c body size idx s,
      Raw.garbage s ∈ get_full_data_from_cache c (get_hash (body ++ eff_index svc idx))
        size →
      ∃ err, (get_data svc es c body size idx).result = Except.error err) ∧
    (∀ es c body size idx srcs s,
      c.lists (get_hash (body ++ eff_index svc idx)) = [] →
      es.search (eff_index svc idx) body = ESearchResult.hits srcs →
      Raw.garbage s ∈ srcs →
      ∃ err, (get_data svc es c body size idx).result = Except.error err) := by
  refine ⟨?_, ?_, ?_, ?_⟩
  · intro es c doc_id s hc hs
    have hemp : s.isEmpty = false := by
      rw [Bool.eq_false_iff]
      intro hemp
      exact hs ((String.isEmpty_iff s).mp hemp)
    have ht : (Raw.garbage s).isTruthy = true := by
      simp [Raw.isTruthy, hemp]
    rw [get_by_id_hit_shape svc es c doc_id (Raw.garbage s) hc ht]
    simp [hv, parseEntity]
  · intro es c doc_id s hmiss hes
    rw [get_by_id_miss_shape svc es c doc_id (fun raw hr => by rw [hmiss] at hr; cases hr)]
    simp [get_item_from_elastic, hes, hv, parseEntity]
  · intro es c body size idx s hmem
    obtain ⟨err, herr⟩ := parse_items_garbage svc s _ hmem
    have hdata : (get_full_data_from_cache c (get_hash (body ++ eff_index svc idx))
        size).isEmpty = false := by
      simpa [List.isEmpty_iff] using List.ne_nil_of_mem hmem
    exact ⟨err, by simp [get_data, hdata, herr]⟩
  · intro es c body size idx srcs s hempty hsearch hmem
    obtain ⟨err, herr⟩ := parse_items_garbage svc s srcs hmem
    exact ⟨err, by simp [get_data, get_full_data_from_cache, redisLrange, hempty,
      get_data_from_elastic, hsearch, herr]⟩

/-- Witness for C8 amended: a nonempty malformed payload in the single-entry
cache, in a backend document, in the cached collection and in a backend hit
list each produce a propagated error. -/
theorem malformed_payload_propagates_witness :
    (get_by_id svcG esNF cGarb "g").result =
      Except.error (PyError.validationError "bad") ∧
    (get_by_id svcG esGarbDoc c0 "g").result =
      Except.error (PyError.validationError "bad") ∧
    (∃ err, (get_data svcG esNF cListGarb "q" 1 none).result = Except.error err) ∧
    (∃ err, (get_data svcG esGarbHits c0 "q" 1 none).result = Except.error err) := by
  have h := malformed_payload_propagates svcG Variant.genres rfl
  refine ⟨h.1 esNF cGarb "g" "bad" rfl (by simp), ?_, ?_, ?_⟩
  · exact h.2.1 esGarbDoc c0 "g" "bad" rfl rfl
  · exact h.2.2.1 esNF cListGarb "q" 1 none "bad" (by simp [get_full_data_from_cache,
      redisLrange, cListGarb])
  · exact h.2.2.2 esGarbHits c0 "q" 1 none [Raw.garbage "bad"] "bad" rfl rfl (by simp)

theorem get_by_id_fallback (svc : BaseDataService) (es : Elastic) (c : CacheState)
    (doc_id : String)
    (hc : ∀ raw, redisGet c (svc.index_name ++ doc_id) = some raw → raw.isTruthy = false) :
    (get_by_id svc es c doc_id).result =
      (match get_item_from_elastic svc es doc_id with
      | Except.error err => Except.error err
      | Except.ok none => Except.ok none
      | Except.ok (some _) => Except.error setExpireTypeError) ∧
    (get_by_id svc es c doc_id).elasticCalls = 1 := by
  rw [get_by_id_miss_shape svc es c doc_id hc]
  cases hge : get_item_from_elastic svc es doc_id with
  | error err => simp
  | ok o => cases o <;> simp [put_item_to_cache]

theorem get_by_id_hit_result (svc : BaseDataService) (es : Elastic) (c : CacheState)
    (doc_id : String) (raw : Raw)
    (hc : redisGet c (svc.index_name ++ doc_id) = some raw) (ht : raw.isTruthy = true) :
    (get_by_id svc es c doc_id).result =
      (match MODELS svc.index_name with
      | none => Except.error (PyError.keyError svc.index_name)
      | some _ =>
          match parseEntity raw with
          | Except.ok e => Except.ok (some e)
          | Except.error err => Except.error err) ∧
    (get_by_id svc es c doc_id).elasticCalls = 0 := by
  rw [get_by_id_hit_shape svc es c doc_id raw hc ht]
  cases hm : MODELS svc.index_name with
  | none => simp
  | some v => cases hp : parseEntity raw <;> simp

/-- C9: the existence check of _get_item_from_cache is issued on the bare
doc_id and its result is never awaited, so the check branch is taken on every
call; consequently the lookup equals redis.get on the prefixed key, the
observable outcome of get_by_id depends on the cache only through the entry at
index_name + doc_id, and the call counts as a cache hit (zero backend calls)
exactly when that entry holds a truthy value. -/
theorem cache_lookup_ignores_bare_key (svc : BaseDataService) (es : Elastic)
    (c c2 : CacheState) (doc_id : String) :
    existsCheckTruthy c doc_id = true ∧
    get_item_from_cache svc c doc_id = redisGet c (svc.index_name ++ doc_id) ∧
    (c.kv (svc.index_name ++ doc_id) = c2.kv (svc.index_name ++ doc_id) →
      (get_by_id svc es c doc_id).result = (get_by_id svc es c2 doc_id).result ∧
      (get_by_id svc es c doc_id).elasticCalls =
        (get_by_id svc es c2 doc_id).elasticCalls) ∧
    ((get_by_id svc es c doc_id).elasticCalls = 0 ↔
      ∃ raw, redisGet c (svc.index_name ++ doc_id) = some raw ∧ raw.isTruthy = true) := by
  refine ⟨rfl, by simp [get_item_from_cache, existsCheckTruthy], ?_, ?_⟩
  · intro h
    have hget : redisGet c2 (svc.index_name ++ doc_id) =
        redisGet c (svc.index_name ++ doc_id) := by
      simp [redisGet, h]
    cases hr : redisGet c (svc.index_name ++ doc_id) with
    | none =>
        have hc1 := get_by_id_fallback svc es c doc_id
          (fun raw hrr => by rw [hr] at hrr; cases hrr)
        have hc2 := get_by_id_fallback svc es c2 doc_id
          (fun raw hrr => by rw [hget, hr] at hrr; cases hrr)
        rw [hc1.1, hc1.2, hc2.1, hc2.2]
        exact ⟨rfl, rfl⟩
    | some raw =>
        cases ht : raw.isTruthy with
        | true =>
            have hc1 := get_by_id_hit_result svc es c doc_id raw hr ht
            have hc2 := get_by_id_hit_result svc es c2 doc_id raw (by rw [hget, hr]) ht
            rw [hc1.1, hc1.2, hc2.1, hc2.2]
            exact ⟨rfl, rfl⟩
        | false =>
            have hfalsy : ∀ r, redisGet c (svc.index_name ++ doc_id) = some r →
                r.isTruthy = false := by
              intro r hrr
              rw [hr] at hrr
              cases hrr
              exact ht
            have hfalsy2 : ∀ r, redisGet c2 (svc.index_name ++ doc_id) = some r →
                r.isTruthy = false := by
              intro r hrr
              rw [hget] at hrr
              exact hfalsy r hrr
            have hc1 := get_by_id_fallback svc es c doc_id hfalsy
            have hc2 := get_by_id_fallback svc es c2 doc_id hfalsy2
            rw [hc1.1, hc1.2, hc2.1, hc2.2]
            exact ⟨rfl, rfl⟩
  · cases hr : redisGet c (svc.index_name ++ doc_id) with
    | none =>
        have hc1 := get_by_id_fallback svc es c doc_id
          (fun raw hrr => by rw [hr] at hrr; cases hrr)
        rw [hc1.2]
        simp
    | some raw =>
        cases ht : raw.isTruthy with
        | true =>
            have hc1 := get_by_id_hit_result svc es c doc_id raw hr ht
            rw [hc1.2]
            exact iff_of_true rfl ⟨raw, rfl, ht⟩
        | false =>
            have hfalsy : ∀ r, redisGet c (svc.index_name ++ doc_id) = some r →
                r.isTruthy = false := by
              intro r hrr
              rw [hr] at hrr
              cases hrr
              exact ht
            have hc1 := get_by_id_fallback svc es c doc_id hfalsy
            rw [hc1.2]
            apply iff_of_false (by simp)
            rintro ⟨r, hrr, htr⟩
            cases hrr
            rw [ht] at htr
            cases htr

/-- Witness for C9: a value stored under the bare key a (without partition
prefix) is invisible: the call behaves exactly as with the empty cache, and
the hit criterion depends only on the prefixed key genresa. -/
theorem cache_lookup_ignores_bare_key_witness :
    existsCheckTruthy cBare "a" = true ∧
    get_item_from_cache svcG cBare "a" = redisGet cBare (svcG.index_name ++ "a") ∧
    ((get_by_id svcG esNF cBare "a").result = (get_by_id svcG esNF c0 "a").result ∧
      (get_by_id svcG esNF cBare "a").elasticCalls =
        (get_by_id svcG esNF c0 "a").elasticCalls) ∧
    ((get_by_id svcG esNF cBare "a").elasticCalls = 0 ↔
      ∃ raw, redisGet cBare (svcG.index_name ++ "a") = some raw ∧
        raw.isTruthy = true) := by
  have h := cache_lookup_ignores_bare_key svcG esNF cBare c0 "a"
  exact ⟨h.1, h.2.1, h.2.2.1 rfl, h.2.2.2⟩

/-- C10: every deserializing path requires the bound index_name to be one of
movies, persons, genres: for any other index_name (the default empty string
included) the MODELS lookup fails, and any cache hit or backend fetch that
yields at least one document ends in a KeyError instead of a record or None. -/
theorem unknown_index_raises_key_error (svc : BaseDataService)
    (h1 : svc.index_name ≠ "movies") (h2 : svc.index_name ≠ "persons")
    (h3 : svc.index_name ≠ "genres") :
    MODELS svc.index_name = none ∧
    (∀ es c doc_id raw, redisGet c (svc.index_name ++ doc_id) = some raw →
      raw.isTruthy = true →
      (get_by_id svc es c doc_id).result =
        Except.error (PyError.keyError svc.index_name)) ∧
    (∀ es c doc_id src, redisGet c (svc.index_name ++ doc_id) = none →
      es.getDoc svc.index_name doc_id = EGetResult.found src →
      (get_by_id svc es c doc_id).result =
        Except.error (PyError.keyError svc.index_name)) ∧
    (∀ es c body size idx, c.lists (get_hash (body ++ eff_index svc idx)) ≠ [] →
      (get_data svc es c body size idx).result =
        Except.error (PyError.keyError svc.index_name)) ∧
    (∀ es c body size idx srcs, c.lists (get_hash (body ++ eff_index svc idx)) = [] →
      es.search (eff_index svc idx) body = ESearchResult.hits srcs → srcs ≠ [] →
      (get_data svc es c body size idx).result =
        Except.error (PyError.keyError svc.index_name)) := by
  have hm : MODELS svc.index_name = none := by
    unfold MODELS
    simp [h1, h2, h3]
  refine ⟨hm, ?_, ?_, ?_, ?_⟩
  · intro es c doc_id raw hc ht
    rw [get_by_id_hit_shape svc es c doc_id raw hc ht]
    simp [hm]
  · intro es c doc_id src hmiss hes
    rw [get_by_id_miss_shape svc es c doc_id (fun raw hr => by rw [hmiss] at hr; cases hr)]
    simp [get_item_from_elastic, hes, hm]
  · intro es c body size idx hne
    cases hl : c.lists (get_hash (body ++ eff_index svc idx)) with
    | nil => exact absurd hl hne
    | cons r rest =>
        simp [get_data, get_full_data_from_cache, redisLrange, hl, parse_items, hm]
  · intro es c body size idx srcs hempty hsearch hne
    cases srcs with
    | nil => exact absurd rfl hne
    | cons r rest =>
        simp [get_data, get_full_data_from_cache, redisLrange, hempty,
          get_data_from_elastic, hsearch, parse_items, hm]

/-- Witness for C10: a service left at the default empty index_name produces a
KeyError on a cache hit, on a found backend document, on a cache-served query
and on a query whose backend search yields documents. -/
theorem unknown_index_raises_key_error_witness :
    MODELS svcEmpty.index_name = none ∧
    (get_by_id svcEmpty esNF cBare "a").result =
      Except.error (PyError.keyError "") ∧
    (get_by_id svcEmpty esFoundA c0 "a").result =
      Except.error (PyError.keyError "") ∧
    (get_data svcEmpty esNF cList3 "q" 1 none).result =
      Except.error (PyError.keyError "") ∧
    (get_data svcEmpty esAB c0 "q" 1 none).result =
      Except.error (PyError.keyError "") := by
  have h := unknown_index_raises_key_error svcEmpty (by decide) (by decide) (by decide)
  refine ⟨h.1, ?_, ?_, ?_, ?_⟩
  · exact h.2.1 esNF cBare "a" (Raw.enc entA) rfl rfl
  · exact h.2.2.1 esFoundA c0 "a" (Raw.enc entA) rfl rfl
  · exact h.2.2.2.1 esNF cList3 "q" 1 none (by simp [cList3])
  · exact h.2.2.2.2 esAB c0 "q" 1 none [Raw.enc entA, Raw.enc entB] rfl rfl (by simp)
